import Mathlib

/-
Verification of the decision engine and backtest simulator of the
quantchallenge-starter repository.

The definitions below are a shallow embedding of
`src/trading/trading_v4.py` (class `Strategy`) and
`src/trading/trading_v3_backtest.py` (`max_drawdown`,
`place_market_order_local`, the equity recording of `run_single_game`).

Modelling conventions:
 - Python floats are modelled as exact rationals (`ℚ`); decimal literals
   such as `0.04` become the rational `4/100`.
 - `math.exp` is a transcendental library function on floats; it is
   modelled as an abstract parameter `expQ : ℚ → ℚ` threaded through the
   definitions that call it.  None of the properties proved below depend
   on its values, and the closed evaluations query it only at `0`, where
   `math.exp 0.0 = 1.0` holds exactly.
 - Python `int(x)` truncates toward zero (`pyInt`); Python `round(x)`
   rounds half to even (`pyRound`).
 - The side effect of calling `place_market_order` is modelled by
   returning the list of emitted order intents next to the new state.
 - The `capital` attribute is set on the object from outside; the code
   reads it with `getattr(self, "capital", 100_000.0)`.  It is modelled
   as an `Option ℚ` field read through `capitalOrDefault`.
 - Debug printing has no state effect and is omitted.
-/

section TradingV4

attribute [local semireducible] Rat.add Rat.mul Rat.sub Rat.inv

/-- Python `int(x)` conversion: truncation toward zero. -/
def pyInt (q : ℚ) : ℤ := if 0 ≤ q then ⌊q⌋ else ⌈q⌉

/-- Python `round(x)`: round half to even. -/
def pyRound (q : ℚ) : ℤ :=
  if 2 * (q - ⌊q⌋) = 1 then (if 2 ∣ ⌊q⌋ then ⌊q⌋ else ⌊q⌋ + 1) else ⌊q + 1/2⌋

/-- Order side (`class Side(Enum)` of trading_v4.py). -/
inductive Side where
  | BUY : Side
  | SELL : Side
deriving DecidableEq

/-- Tradable instrument (`class Ticker(Enum)` of trading_v4.py). -/
inductive Ticker where
  | TEAM_A : Ticker
deriving DecidableEq

/-- An emitted order intent: one call to `place_market_order`. -/
structure Order where
  side : Side
  ticker : Ticker
  quantity : ℤ
deriving DecidableEq

/-- A parsed game event, the arguments of `Strategy.on_game_event_update`.
Only the fields the handler reads are carried; the handler ignores
`player_name`, `substituted_player_name`, `assist_player`, `rebound_type`,
`coordinate_x` and `coordinate_y` entirely, so they are omitted. -/
structure GameEvent where
  event_type : String
  home_away : String
  home_score : ℤ
  away_score : ℤ
  shot_type : Option String
  time_seconds : Option ℚ
deriving DecidableEq

/-- The `Strategy` object of trading_v4.py: the constructor hyperparameters
together with the mutable fields assigned in `reset_state`, plus the
externally injected `capital` attribute. -/
structure Strategy where
  alpha : ℚ
  beta : ℚ
  max_exposure_pct : ℚ
  base_gap : ℚ
  min_gap : ℚ
  recent_max_events : ℕ
  cooldown_seconds : ℤ
  home_score : ℤ
  away_score : ℤ
  time_remaining : ℚ
  position : ℤ
  last_trade_time : ℚ
  market_price : ℚ
  recent_scoring_events : List (String × ℤ)
  home_made_shots : ℕ
  home_attempts : ℕ
  away_made_shots : ℕ
  away_attempts : ℕ
  capital : Option ℚ
deriving DecidableEq

/-- Method `Strategy.reset_state`: re-initialize every mutable game-state field.
The constructor hyperparameters and the externally owned `capital`
attribute are not assigned by the Python method and stay as they are. -/
def Strategy.reset_state (s : Strategy) : Strategy :=
  { s with
    home_score := 0
    away_score := 0
    time_remaining := 2400
    position := 0
    last_trade_time := -1
    market_price := 50
    recent_scoring_events := []
    home_made_shots := 0
    home_attempts := 0
    away_made_shots := 0
    away_attempts := 0 }

/-- Constructor `Strategy.__init__`: store the hyperparameters, then `reset_state`.
No `capital` attribute exists yet at construction time. -/
def Strategy.init (alpha beta max_exposure_pct base_gap min_gap : ℚ)
    (recent_max_events : ℕ) (cooldown_seconds : ℤ) : Strategy :=
  Strategy.reset_state
    { alpha := alpha
      beta := beta
      max_exposure_pct := max_exposure_pct
      base_gap := base_gap
      min_gap := min_gap
      recent_max_events := recent_max_events
      cooldown_seconds := cooldown_seconds
      home_score := 0
      away_score := 0
      time_remaining := 0
      position := 0
      last_trade_time := 0
      market_price := 0
      recent_scoring_events := []
      home_made_shots := 0
      home_attempts := 0
      away_made_shots := 0
      away_attempts := 0
      capital := none }

/-- A strategy built with the default hyperparameters of `__init__`:
`alpha=0.5, beta=0.5, max_exposure_pct=0.20, base_gap=1.0, min_gap=0.5,
recent_max_events=8, cooldown_seconds=3`. -/
def defaultStrategy : Strategy :=
  Strategy.init (1/2) (1/2) (2/10) 1 (1/2) 8 3

/-- Method `Strategy.update_scoring_run`: append a scoring event and trim the
history from the front when it exceeds `recent_max_events`. -/
def Strategy.update_scoring_run (s : Strategy) (home_away : String) (points : ℤ) :
    Strategy :=
  if home_away = "home" ∨ home_away = "away" then
    let events := s.recent_scoring_events ++ [(home_away, points)]
    { s with recent_scoring_events :=
        if s.recent_max_events < events.length then events.tail else events }
  else s

/-- Method `Strategy.scoring_run_differential`: net home-minus-away points over
the recent window, normalized by `max(1, 3·window length)`. -/
def Strategy.scoring_run_differential (s : Strategy) : ℚ :=
  if s.recent_scoring_events.isEmpty then 0
  else
    let net : ℤ := s.recent_scoring_events.foldl
      (fun acc sp => if sp.1 = "home" then acc + sp.2 else acc - sp.2) 0
    let norm : ℚ := max 1 ((s.recent_scoring_events.length : ℚ) * 3)
    (net : ℚ) / norm

/-- Method `Strategy.compute_win_probability`: blend of time-decayed score
differential, scoring-run momentum and shooting efficiency, clamped to
`[0.01, 0.99]`.  `expQ` stands for `math.exp`. -/
def Strategy.compute_win_probability (expQ : ℚ → ℚ) (s : Strategy) : ℚ :=
  let score_diff : ℚ := ((s.home_score - s.away_score : ℤ) : ℚ)
  let time_decay : ℚ := expQ (-s.time_remaining / 600)
  let base_from_score : ℚ := 1/2 + ((4/100) * score_diff) * (1 + time_decay)
  let run_diff : ℚ := s.scoring_run_differential
  let momentum_factor : ℚ := 1/2 + (2/10) * run_diff
  let home_eff : ℚ := (s.home_made_shots : ℚ) / ((max 1 s.home_attempts : ℕ) : ℚ)
  let away_eff : ℚ := (s.away_made_shots : ℚ) / ((max 1 s.away_attempts : ℕ) : ℚ)
  let eff_factor : ℚ := 1/2 + (1/10) * (home_eff - away_eff)
  let weighted : ℚ :=
    (s.alpha * base_from_score + s.beta * momentum_factor + (1/2) * eff_factor) /
      (s.alpha + s.beta + 1/2)
  min (max weighted (1/100)) (99/100)

/-- Method `Strategy.dynamic_gap_threshold`: required model-vs-market gap in
price points; larger early in the game, shrunk hard in the last 30s. -/
def Strategy.dynamic_gap_threshold (s : Strategy) : ℚ :=
  let time_factor : ℚ := min (max (s.time_remaining / 2400) 0) 1
  let threshold : ℚ := max s.min_gap (s.base_gap * (1 + time_factor))
  if s.time_remaining < 30 then max (s.min_gap * (1/4)) (threshold * (1/4))
  else threshold

/-- Python `getattr(self, "capital", 100_000.0)`. -/
def Strategy.capitalOrDefault (s : Strategy) : ℚ := s.capital.getD 100000

/-- Method `Strategy.compute_trade_size`: capital-aware sizing.  Returns 0 when
`market_price ≤ 0`; scales the exposure-capped share count by the edge;
rounds a positive result below `min_trade = 10` up to 10. -/
def Strategy.compute_trade_size (s : Strategy) (win_prob : ℚ)
    (max_exposure_pct : Option ℚ) : ℤ :=
  let mep : ℚ := max_exposure_pct.getD s.max_exposure_pct
  let market_prob : ℚ := s.market_price / 100
  if s.market_price ≤ 0 then 0
  else
    let edge : ℚ := win_prob - market_prob
    let capital : ℚ := s.capitalOrDefault
    let price_per_share : ℚ := s.market_price / 100
    let max_shares_by_exposure : ℤ :=
      pyInt ((capital * mep) / max (1/1000000000) price_per_share)
    let scale : ℚ := min 1 (max 0 (|edge| / (1/2)))
    let target_shares : ℤ := pyInt ((max_shares_by_exposure : ℚ) * scale)
    let min_trade : ℤ := 10
    let shares : ℤ := max 0 target_shares
    if 0 < shares ∧ shares < min_trade then min_trade else shares

/-- Method `Strategy.check_run_stop_loss`: true when the scoring-run
differential has moved strongly against the current position. -/
def Strategy.check_run_stop_loss (s : Strategy) : Bool :=
  let run_diff : ℚ := s.scoring_run_differential
  let shock_threshold : ℚ := 4/10
  if 0 < s.position ∧ run_diff < -shock_threshold then true
  else if s.position < 0 ∧ shock_threshold < run_diff then true
  else false

/-- Method `Strategy.on_orderbook_update`: store the provided price as the
current market price.  The body places no order. -/
def Strategy.on_orderbook_update (s : Strategy) (price : ℚ) :
    Strategy × List Order :=
  ({ s with market_price := price }, [])

/-- Step 1 of `Strategy.on_game_event_update` (lines 277-280):
overwrite the scores, and the time when the event carries one. -/
def Strategy.apply_score_time (s : Strategy) (ev : GameEvent) : Strategy :=
  let s1 := { s with home_score := ev.home_score, away_score := ev.away_score }
  match ev.time_seconds with
  | some t => { s1 with time_remaining := t }
  | none => s1

/-- The throttle condition of `on_game_event_update` (lines 283-285),
evaluated on the state after step 1: `last_trade_time` is set (the code
initializes it to the `-1.0` sentinel and never to `None`) and the time
moved by less than `cooldown_seconds`. -/
def Strategy.throttled (s : Strategy) : Prop :=
  0 ≤ s.last_trade_time ∧
    |s.last_trade_time - s.time_remaining| < (s.cooldown_seconds : ℚ)

instance (s : Strategy) : Decidable s.throttled :=
  inferInstanceAs (Decidable (0 ≤ s.last_trade_time ∧
    |s.last_trade_time - s.time_remaining| < (s.cooldown_seconds : ℚ)))

/-- The ignorable-event list of `on_game_event_update` (line 289). -/
def ignorableEvents : List String :=
  ["NOTHING", "START_PERIOD", "END_PERIOD", "SUBSTITUTION", "UNKNOWN"]

/-- The scoring / efficiency update section of `on_game_event_update`
(lines 292-316). -/
def Strategy.applyScoring (s : Strategy) (ev : GameEvent) : Strategy :=
  if ev.event_type = "SCORE" then
    let scored_points : ℤ :=
      if ev.shot_type = some "FREE_THROW" then 1
      else if ev.shot_type = some "TWO_POINT" ∨ ev.shot_type = some "LAYUP" ∨
          ev.shot_type = some "DUNK" then 2
      else if ev.shot_type = some "THREE_POINT" then 3
      else 0
    if 0 < scored_points ∧ (ev.home_away = "home" ∨ ev.home_away = "away") then
      let s1 := s.update_scoring_run ev.home_away scored_points
      if ev.home_away = "home" then
        { s1 with home_made_shots := s1.home_made_shots + 1,
                  home_attempts := s1.home_attempts + 1 }
      else
        { s1 with away_made_shots := s1.away_made_shots + 1,
                  away_attempts := s1.away_attempts + 1 }
    else s
  else if ev.event_type = "MISSED" then
    if ev.home_away = "home" then { s with home_attempts := s.home_attempts + 1 }
    else if ev.home_away = "away" then { s with away_attempts := s.away_attempts + 1 }
    else s
  else s

/-- The trading-decision section of `on_game_event_update` (lines
341-382), reached when the stop-loss did not fire: buy when the model
price exceeds the market by more than the gap, sell when it is below by
more than the gap, in both cases capped by the remaining exposure
allowance; otherwise do nothing. -/
def Strategy.tradeDecision (s : Strategy) (win_prob gap : ℚ) :
    Strategy × List Order :=
  let market_price : ℚ := s.market_price
  let model_price : ℚ := win_prob * 100
  let diff : ℚ := model_price - market_price
  if gap < diff then
    let qty0 := s.compute_trade_size win_prob none
    let capital := s.capitalOrDefault
    let price_per := max (1/100) (market_price / 100)
    let max_shares_allowed := pyInt (capital * s.max_exposure_pct / price_per)
    let allowed_qty := max 0 (max_shares_allowed - max 0 s.position)
    let qty := min qty0 allowed_qty
    if 0 < qty then
      ({ s with position := s.position + qty }, [⟨Side.BUY, Ticker.TEAM_A, qty⟩])
    else (s, [])
  else if diff < -gap then
    let qty0 := s.compute_trade_size win_prob none
    let capital := s.capitalOrDefault
    let price_per := max (1/100) (market_price / 100)
    let max_shares_allowed := pyInt (capital * s.max_exposure_pct / price_per)
    let allowed_qty_short := max 0 (max_shares_allowed - max 0 (-s.position))
    let qty := min qty0 allowed_qty_short
    if 0 < qty then
      ({ s with position := s.position - qty }, [⟨Side.SELL, Ticker.TEAM_A, qty⟩])
    else (s, [])
  else (s, [])

/-- Method `Strategy.on_game_event_update`: the per-event processing of
trading_v4.py lines 256-390.  Update scores and time; return if
throttled; record the decision time; return on ignorable event types;
update the scoring counters; compute probability and gap; close the
whole position and return if the run-based stop-loss fires (this return
comes before the END_GAME check); otherwise run the trading decision;
finally reset all state if the event is END_GAME. -/
def Strategy.on_game_event_update (expQ : ℚ → ℚ) (s : Strategy)
    (ev : GameEvent) : Strategy × List Order :=
  let s1 := s.apply_score_time ev
  if s1.throttled then (s1, [])
  else
    let s2 := { s1 with last_trade_time := s1.time_remaining }
    if ev.event_type ∈ ignorableEvents then (s2, [])
    else
      let s3 := s2.applyScoring ev
      let win_prob := s3.compute_win_probability expQ
      let gap := s3.dynamic_gap_threshold
      if s3.check_run_stop_loss ∧ s3.position ≠ 0 then
        ({ s3 with position := 0 },
         [if 0 < s3.position then (⟨Side.SELL, Ticker.TEAM_A, |s3.position|⟩ : Order)
          else ⟨Side.BUY, Ticker.TEAM_A, |s3.position|⟩])
      else
        let r := s3.tradeDecision win_prob gap
        if ev.event_type = "END_GAME" then (r.1.reset_state, r.2) else r

/-- One fill record appended to `bot.trades` by the backtester. -/
structure Fill where
  time : ℚ
  side : Side
  qty : ℤ
  price : ℚ
  capital : ℚ
  position : ℤ
deriving DecidableEq

/-- The attributes of the strategy object that the local backtester
fill function reads and writes (`run_single_game` lines 40-46). -/
structure BacktestBot where
  capital : ℚ
  position : ℤ
  max_fav_price : ℚ
  market_price : ℚ
  time_remaining : ℚ
  trades : List Fill
deriving DecidableEq

/-- Function `place_market_order_local` of trading_v3_backtest.py (lines 49-74):
an immediate, slippage-free fill at the current market price.  A BUY
debits `price·qty/100` from capital and increments the position; a SELL
credits and decrements.  Then the trailing-stop high-water mark is
updated and the fill is logged. -/
def place_market_order_local (bot : BacktestBot) (side : Side)
    (quantity : ℚ) : BacktestBot :=
  let qty : ℤ := max 0 (pyRound quantity)
  let price : ℚ := bot.market_price
  if qty = 0 then bot
  else
    let bot1 :=
      if side = Side.BUY then
        { bot with capital := bot.capital - price * (qty : ℚ) / 100,
                   position := bot.position + qty }
      else
        { bot with capital := bot.capital + price * (qty : ℚ) / 100,
                   position := bot.position - qty }
    let bot2 :=
      if 0 < bot1.position then
        { bot1 with max_fav_price := max bot1.max_fav_price price }
      else { bot1 with max_fav_price := price }
    { bot2 with trades := bot2.trades ++
        [⟨bot2.time_remaining, side, qty, price, bot2.capital, bot2.position⟩] }

/-- The instantaneous equity recorded after each event by
`run_single_game` (line 106): `capital + position · market_price / 100`. -/
def BacktestBot.equity (bot : BacktestBot) : ℚ :=
  bot.capital + (bot.position : ℚ) * bot.market_price / 100

/-- Function `max_drawdown` of trading_v3_backtest.py (lines 10-20): running-peak
drawdown.  The initial `-inf` peak is modelled by `none`. -/
def max_drawdown (equity_curve : List ℚ) : ℚ :=
  (equity_curve.foldl
    (fun st v =>
      let peak : ℚ :=
        match st.1 with
        | none => v
        | some p => if p < v then v else p
      let max_dd : ℚ :=
        if 0 < peak then
          (if st.2 < (peak - v) / peak then (peak - v) / peak else st.2)
        else st.2
      (some peak, max_dd))
    ((none : Option ℚ), (0 : ℚ))).2

/-- The last `n` elements of a list. -/
def takeLast {α : Type} (n : ℕ) (l : List α) : List α := l.drop (l.length - n)

/-- Stand-in for `math.exp` in closed evaluations.  Every concrete run
below queries the exponential only at argument `0`, where
`math.exp 0.0 = 1.0` exactly; the value elsewhere is never read. -/
def expAt0 : ℚ → ℚ := fun q => if q = 0 then 1 else 0

/-- The state after step 1 plus the `last_trade_time` bookkeeping of
line 286, i.e. the state an event leaves behind when it falls into the
ignorable set. -/
def Strategy.afterBookkeeping (s : Strategy) (ev : GameEvent) : Strategy :=
  let s1 := s.apply_score_time ev
  { s1 with last_trade_time := s1.time_remaining }

/-- A strategy whose scoring window is configured to hold `W` events. -/
def windowStrategy (W : ℕ) : Strategy :=
  Strategy.init (1/2) (1/2) (2/10) 1 (1/2) W 3

/-- A TIMEOUT event at the very end of the game (`time_seconds = 0`,
where `math.exp 0.0 = 1.0` exactly) with the home side far ahead. -/
def evTimeout : GameEvent :=
  { event_type := "TIMEOUT", home_away := "home", home_score := 30,
    away_score := 0, shot_type := none, time_seconds := some 0 }

/-- A NOTHING event (in the ignorable set) at `time_seconds = 100`. -/
def evNothing : GameEvent :=
  { event_type := "NOTHING", home_away := "", home_score := 1,
    away_score := 0, shot_type := none, time_seconds := some 100 }

/-- A FOUL event one second after `evNothing`. -/
def evFoul : GameEvent :=
  { event_type := "FOUL", home_away := "home", home_score := 1,
    away_score := 0, shot_type := none, time_seconds := some 99 }

/-- A state whose `last_trade_time` is set to 100 seconds remaining. -/
def sRecent : Strategy :=
  { defaultStrategy with last_trade_time := 100, time_remaining := 100,
                         home_score := 3, away_score := 2 }

/-- An END_GAME event one second after the decision recorded in
`sRecent`, hence throttled. -/
def evEndGameThrottled : GameEvent :=
  { event_type := "END_GAME", home_away := "", home_score := 5,
    away_score := 2, shot_type := none, time_seconds := some 99 }

/-- An END_GAME event reaching a fresh engine (not throttled, flat
position, so no stop-loss). -/
def evEndGameFresh : GameEvent :=
  { event_type := "END_GAME", home_away := "", home_score := 2,
    away_score := 0, shot_type := none, time_seconds := some 50 }

/-- Concrete pushes for the scoring-window round trip: three valid
scoring events against a window of 2. -/
def c5Pushes : List (String × ℤ) := [("home", 2), ("away", 3), ("home", 1)]

/- ------------------------------------------------------------------ -/
/- Helper lemmas shared by the claim theorems.                         -/
/- ------------------------------------------------------------------ -/

theorem takeLast_length {α : Type} (n : ℕ) (l : List α) :
    (takeLast n l).length = min n l.length := by
  simp [takeLast]
  omega

theorem takeLast_of_length_le {α : Type} {n : ℕ} {l : List α}
    (h : l.length ≤ n) : takeLast n l = l := by
  simp [takeLast, Nat.sub_eq_zero_of_le h]

theorem takeLast_append_one {α : Type} (n : ℕ) (l : List α) (x : α) :
    takeLast n (takeLast n l ++ [x]) = takeLast n (l ++ [x]) := by
  rcases le_or_lt l.length n with h | h
  · rw [takeLast_of_length_le h]
  · unfold takeLast
    have e1 : (l.drop (l.length - n) ++ [x]).length - n = 1 := by
      simp
      omega
    have e2 : (l ++ [x]).length - n = (l.length - n) + 1 := by
      simp
      omega
    rw [e1, e2, List.drop_append_eq_append_drop, List.drop_append_eq_append_drop,
      List.drop_drop]
    have e4 : 1 - (l.drop (l.length - n)).length = l.length - n + 1 - l.length := by
      simp
      omega
    rw [e4]

theorem update_scoring_run_max (t : Strategy) (a : String) (pts : ℤ) :
    (t.update_scoring_run a pts).recent_max_events = t.recent_max_events := by
  unfold Strategy.update_scoring_run
  split_ifs <;> rfl

theorem update_scoring_run_recent (t : Strategy) (a : String) (pts : ℤ)
    (hside : a = "home" ∨ a = "away")
    (hlen : t.recent_scoring_events.length ≤ t.recent_max_events) :
    (t.update_scoring_run a pts).recent_scoring_events =
      takeLast t.recent_max_events (t.recent_scoring_events ++ [(a, pts)]) := by
  unfold Strategy.update_scoring_run
  rw [if_pos hside]
  dsimp only
  rcases Nat.lt_or_ge t.recent_scoring_events.length t.recent_max_events with h | h
  · rw [if_neg (by simp; omega), takeLast_of_length_le (by simp; omega)]
  · have heq : t.recent_scoring_events.length = t.recent_max_events :=
      Nat.le_antisymm hlen h
    rw [if_pos (by simp; omega)]
    unfold takeLast
    have e1 : (t.recent_scoring_events ++ [(a, pts)]).length - t.recent_max_events = 1 := by
      simp
      omega
    rw [e1, List.drop_one]

theorem foldl_update_scoring_run (s : Strategy)
    (hlen : s.recent_scoring_events.length ≤ s.recent_max_events)
    (pushes : List (String × ℤ)) :
    (∀ p ∈ pushes, p.1 = "home" ∨ p.1 = "away") →
    (pushes.foldl (fun t p => t.update_scoring_run p.1 p.2) s).recent_max_events =
        s.recent_max_events ∧
      (pushes.foldl (fun t p => t.update_scoring_run p.1 p.2) s).recent_scoring_events =
        takeLast s.recent_max_events (s.recent_scoring_events ++ pushes) := by
  induction pushes using List.reverseRecOn with
  | nil =>
    intro _
    exact ⟨rfl, by rw [List.foldl_nil, List.append_nil, takeLast_of_length_le hlen]⟩
  | append_singleton ps p ih =>
    intro hv
    have hvp : p.1 = "home" ∨ p.1 = "away" := hv p (by simp)
    obtain ⟨ihmax, ihrec⟩ := ih (fun q hq => hv q (List.mem_append_left _ hq))
    rw [List.foldl_append, List.foldl_cons, List.foldl_nil]
    have hlen2 :
        (ps.foldl (fun t p => t.update_scoring_run p.1 p.2) s).recent_scoring_events.length ≤
        (ps.foldl (fun t p => t.update_scoring_run p.1 p.2) s).recent_max_events := by
      rw [ihrec, ihmax, takeLast_length]
      omega
    constructor
    · rw [update_scoring_run_max, ihmax]
    · rw [update_scoring_run_recent _ p.1 p.2 hvp hlen2, ihrec, ihmax]
      simp only [Prod.mk.eta]
      rw [takeLast_append_one, ← List.append_assoc]

theorem tradeDecision_reset (s : Strategy) (wp g : ℚ) :
    (s.tradeDecision wp g).1.reset_state = s.reset_state := by
  simp only [Strategy.tradeDecision]
  split_ifs <;> rfl

theorem apply_score_time_reset (s : Strategy) (ev : GameEvent) :
    (s.apply_score_time ev).reset_state = s.reset_state := by
  unfold Strategy.apply_score_time
  cases ev.time_seconds <;> rfl

/- ------------------------------------------------------------------ -/
/- Claim theorems.                                                     -/
/- ------------------------------------------------------------------ -/

/-- C3 counterexample: on the equity curve `[100, 120, 90, 150, 60]` the
max-drawdown computation of trading_v3_backtest.py does not return 0.5:
the running peak is 150 (not 120) when the trough 60 is reached. -/
theorem c3_drawdown_counterexample :
    max_drawdown [100, 120, 90, 150, 60] ≠ 1/2 := by decide

/-- C3 (amended): the max-drawdown computation applied to the equity
curve `[100, 120, 90, 150, 60]` returns `(150 - 60)/150 = 0.6`, the
largest peak-to-subsequent-trough ratio — the relevant peak being the
running maximum 150, not 120. -/
theorem c3_drawdown_example :
    max_drawdown [100, 120, 90, 150, 60] = (150 - 60) / 150 := by decide

/-- C8: the trade-sizing function returns 0 shares (raising nothing)
whenever `market_price ≤ 0`, and any positive quantity it returns is at
least the minimum trade size 10: a result strictly between 0 and 10 is
rounded up to 10. -/
theorem c8_trade_size_guards (s : Strategy) (win_prob : ℚ) (mep : Option ℚ) :
    (s.market_price ≤ 0 → s.compute_trade_size win_prob mep = 0) ∧
      (0 < s.compute_trade_size win_prob mep →
        10 ≤ s.compute_trade_size win_prob mep) := by
  constructor
  · intro h
    unfold Strategy.compute_trade_size
    rw [if_pos h]
  · intro h
    unfold Strategy.compute_trade_size at h ⊢
    by_cases hm : s.market_price ≤ 0
    · rw [if_pos hm] at h
      exact absurd h (by norm_num)
    · rw [if_neg hm] at h ⊢
      dsimp only at h ⊢
      split_ifs at h ⊢ with h2
      · norm_num
      · have h3 := (not_and_or.mp h2).resolve_left (not_not.mpr h)
        omega

/-- C8 witness: a state with a negative market price yields zero shares. -/
theorem c8_trade_size_guards_witness :
    ({ defaultStrategy with market_price := -5 } : Strategy).market_price ≤ 0 ∧
      ({ defaultStrategy with market_price := -5 } : Strategy).compute_trade_size
        (1/2) none = 0 :=
  ⟨by decide,
   (c8_trade_size_guards { defaultStrategy with market_price := -5 } (1/2) none).1
     (by decide)⟩

/-- C9: a market-price (orderbook) update overwrites only the
`market_price` field; every other field of the strategy state is
unchanged and no order intent is emitted. -/
theorem c9_orderbook_update_frame (s : Strategy) (price : ℚ) :
    (s.on_orderbook_update price).1.market_price = price ∧
      (s.on_orderbook_update price).1.alpha = s.alpha ∧
      (s.on_orderbook_update price).1.beta = s.beta ∧
      (s.on_orderbook_update price).1.max_exposure_pct = s.max_exposure_pct ∧
      (s.on_orderbook_update price).1.base_gap = s.base_gap ∧
      (s.on_orderbook_update price).1.min_gap = s.min_gap ∧
      (s.on_orderbook_update price).1.recent_max_events = s.recent_max_events ∧
      (s.on_orderbook_update price).1.cooldown_seconds = s.cooldown_seconds ∧
      (s.on_orderbook_update price).1.home_score = s.home_score ∧
      (s.on_orderbook_update price).1.away_score = s.away_score ∧
      (s.on_orderbook_update price).1.time_remaining = s.time_remaining ∧
      (s.on_orderbook_update price).1.position = s.position ∧
      (s.on_orderbook_update price).1.last_trade_time = s.last_trade_time ∧
      (s.on_orderbook_update price).1.recent_scoring_events = s.recent_scoring_events ∧
      (s.on_orderbook_update price).1.home_made_shots = s.home_made_shots ∧
      (s.on_orderbook_update price).1.home_attempts = s.home_attempts ∧
      (s.on_orderbook_update price).1.away_made_shots = s.away_made_shots ∧
      (s.on_orderbook_update price).1.away_attempts = s.away_attempts ∧
      (s.on_orderbook_update price).1.capital = s.capital ∧
      (s.on_orderbook_update price).2 = [] :=
  ⟨rfl, rfl, rfl, rfl, rfl, rfl, rfl, rfl, rfl, rfl, rfl, rfl, rfl, rfl, rfl,
   rfl, rfl, rfl, rfl, rfl⟩

/-- C10: a simulated fill leaves the instantaneous equity
`capital + position · market_price / 100` exactly unchanged: the capital
debit/credit of `price·qty/100` is exactly offset by the mark-to-market
value of the position change. -/
theorem c10_fill_preserves_equity (bot : BacktestBot) (side : Side)
    (quantity : ℚ) :
    (place_market_order_local bot side quantity).equity = bot.equity := by
  simp only [place_market_order_local, BacktestBot.equity]
  split_ifs
  · rfl
  all_goals (simp; ring)

/-- C1 counterexample: TIMEOUT is not in the ignorable list of
trading_v4.py line 289, so a TIMEOUT event can fall through to the
decision logic and emit an order.  On a fresh default engine, a TIMEOUT
at `time_seconds = 0` (where the exponential is queried at `0` only)
with the home side up 30-0 emits a BUY of 39200 shares. -/
theorem c1_timeout_counterexample :
    (Strategy.on_game_event_update expAt0 defaultStrategy evTimeout).2 =
      [⟨Side.BUY, Ticker.TEAM_A, 39200⟩] := by decide

/-- C1 (amended): for every processed event whose `event_type` is one of
NOTHING, START_PERIOD, END_PERIOD, SUBSTITUTION or UNKNOWN — TIMEOUT is
not in the ignorable set of the code — the engine stops after the throttle
bookkeeping and emits no order intent, while the score/time updates of
step 1 still apply (and `last_trade_time` is recorded when the event was
not throttled). -/
theorem c1_ignorable_no_decision (expQ : ℚ → ℚ) (s : Strategy)
    (ev : GameEvent) (hig : ev.event_type ∈ ignorableEvents) :
    Strategy.on_game_event_update expQ s ev =
      (if (s.apply_score_time ev).throttled then s.apply_score_time ev
       else s.afterBookkeeping ev, []) := by
  simp only [Strategy.on_game_event_update, Strategy.afterBookkeeping]
  by_cases h : (s.apply_score_time ev).throttled
  · simp only [if_pos h]
  · simp only [if_neg h, if_pos hig]

/-- C1 witness: a NOTHING event on a fresh engine is not throttled,
updates score and time, records the decision time, and emits nothing. -/
theorem c1_ignorable_no_decision_witness :
    evNothing.event_type ∈ ignorableEvents ∧
      Strategy.on_game_event_update expAt0 defaultStrategy evNothing =
        (if (defaultStrategy.apply_score_time evNothing).throttled then
          defaultStrategy.apply_score_time evNothing
         else defaultStrategy.afterBookkeeping evNothing, []) :=
  ⟨by decide,
   c1_ignorable_no_decision expAt0 defaultStrategy evNothing (by decide)⟩

/-- C2 counterexample: an END_GAME event arriving within the cooldown of
a previous decision is throttled, and the throttle `return` comes before
the END_GAME reset — so the state is left un-reset (its `home_score`
stays 5 instead of going back to 0). -/
theorem c2_throttled_endgame_counterexample :
    (Strategy.on_game_event_update expAt0 sRecent evEndGameThrottled).1.home_score
        = 5 ∧
      (Strategy.on_game_event_update expAt0 sRecent evEndGameThrottled).1 ≠
        (Strategy.on_game_event_update expAt0 sRecent evEndGameThrottled).1.reset_state := by
  decide

/-- C2 (amended): an END_GAME event resets the entire mutable state to
its initial values — every field, never in part — provided the event is
not throttled and the run-based stop-loss does not fire on it; a
throttled END_GAME, or one on which the stop-loss path returns, leaves
the state un-reset. -/
theorem c2_endgame_full_reset (expQ : ℚ → ℚ) (s : Strategy) (ev : GameEvent)
    (he : ev.event_type = "END_GAME")
    (ht : ¬ (s.apply_score_time ev).throttled)
    (hsl : ¬ ((s.afterBookkeeping ev).check_run_stop_loss = true ∧
      (s.afterBookkeeping ev).position ≠ 0)) :
    (Strategy.on_game_event_update expQ s ev).1 = s.reset_state := by
  have hmem : ev.event_type ∉ ignorableEvents := by
    rw [he]
    decide
  have hsc : (s.afterBookkeeping ev).applyScoring ev = s.afterBookkeeping ev := by
    unfold Strategy.applyScoring
    rw [he]
    rfl
  simp only [Strategy.on_game_event_update, Strategy.afterBookkeeping] at *
  rw [if_neg ht, if_neg hmem, hsc, if_neg hsl, if_pos he, tradeDecision_reset]
  rw [show ∀ (x : Strategy) (t : ℚ),
      ({ x with last_trade_time := t } : Strategy).reset_state = x.reset_state
    from fun _ _ => rfl]
  exact apply_score_time_reset s ev

/-- C2 witness: an END_GAME event on a fresh engine (not throttled, flat
position so no stop-loss) leaves the whole state fully reset. -/
theorem c2_endgame_full_reset_witness :
    evEndGameFresh.event_type = "END_GAME" ∧
      ¬ (defaultStrategy.apply_score_time evEndGameFresh).throttled ∧
      ¬ ((defaultStrategy.afterBookkeeping evEndGameFresh).check_run_stop_loss = true ∧
        (defaultStrategy.afterBookkeeping evEndGameFresh).position ≠ 0) ∧
      (Strategy.on_game_event_update expAt0 defaultStrategy evEndGameFresh).1 =
        defaultStrategy.reset_state :=
  ⟨rfl, by decide, by decide,
   c2_endgame_full_reset expAt0 defaultStrategy evEndGameFresh rfl (by decide)
     (by decide)⟩

/-- C4: when the previous processing left `last_trade_time` set (≥ 0)
and the effective next-event `time_remaining` differs from it by less
than `cooldown_seconds`, the next event produces no trading decision at
all — no order is emitted — while its score/time updates still apply; so
of two such consecutive events at most the first produces a decision. -/
theorem c4_throttle_second_event (expQ : ℚ → ℚ) (s : Strategy)
    (ev1 ev2 : GameEvent)
    (h0 : 0 ≤ (Strategy.on_game_event_update expQ s ev1).1.last_trade_time)
    (hcd : |(Strategy.on_game_event_update expQ s ev1).1.last_trade_time -
        ((Strategy.on_game_event_update expQ s ev1).1.apply_score_time ev2).time_remaining| <
        (((Strategy.on_game_event_update expQ s ev1).1.apply_score_time ev2).cooldown_seconds : ℚ)) :
    Strategy.on_game_event_update expQ
        (Strategy.on_game_event_update expQ s ev1).1 ev2 =
      ((Strategy.on_game_event_update expQ s ev1).1.apply_score_time ev2, []) := by
  set s1 := (Strategy.on_game_event_update expQ s ev1).1 with hs1
  have hl : (s1.apply_score_time ev2).last_trade_time = s1.last_trade_time := by
    unfold Strategy.apply_score_time
    cases ev2.time_seconds <;> rfl
  have hth : (s1.apply_score_time ev2).throttled := by
    constructor
    · rw [hl]
      exact h0
    · rw [hl]
      exact hcd
  conv_lhs => rw [Strategy.on_game_event_update]
  rw [if_pos hth]

/-- C4 witness: a NOTHING event at 100s leaves `last_trade_time = 100`;
a FOUL event at 99s is within the 3s cooldown, updates score/time, and
emits nothing. -/
theorem c4_throttle_second_event_witness :
    0 ≤ (Strategy.on_game_event_update expAt0 defaultStrategy evNothing).1.last_trade_time ∧
      |(Strategy.on_game_event_update expAt0 defaultStrategy evNothing).1.last_trade_time -
        ((Strategy.on_game_event_update expAt0 defaultStrategy evNothing).1.apply_score_time evFoul).time_remaining| <
        (((Strategy.on_game_event_update expAt0 defaultStrategy evNothing).1.apply_score_time evFoul).cooldown_seconds : ℚ) ∧
      Strategy.on_game_event_update expAt0
          (Strategy.on_game_event_update expAt0 defaultStrategy evNothing).1 evFoul =
        ((Strategy.on_game_event_update expAt0 defaultStrategy evNothing).1.apply_score_time evFoul, []) :=
  ⟨by decide, by decide,
   c4_throttle_second_event expAt0 defaultStrategy evNothing evFoul (by decide)
     (by decide)⟩

/-- C5: pushing any sequence of valid scoring events into a window
configured to hold `W` leaves exactly the last `W` pushes (the oldest
are evicted first); in particular the window length never exceeds `W`,
and equals `W` as soon as at least `W` events were pushed. -/
theorem c5_recent_window_bound (W : ℕ) (pushes : List (String × ℤ))
    (hv : ∀ p ∈ pushes, p.1 = "home" ∨ p.1 = "away") :
    (pushes.foldl (fun t p => t.update_scoring_run p.1 p.2)
        (windowStrategy W)).recent_scoring_events = takeLast W pushes ∧
      (pushes.foldl (fun t p => t.update_scoring_run p.1 p.2)
        (windowStrategy W)).recent_scoring_events.length ≤ W ∧
      (W ≤ pushes.length →
        (pushes.foldl (fun t p => t.update_scoring_run p.1 p.2)
          (windowStrategy W)).recent_scoring_events.length = W) := by
  obtain ⟨hmax, hrec⟩ := foldl_update_scoring_run (windowStrategy W)
    (by simp [windowStrategy, Strategy.init, Strategy.reset_state]) pushes hv
  rw [show (windowStrategy W).recent_scoring_events = [] from rfl,
    show (windowStrategy W).recent_max_events = W from rfl,
    List.nil_append] at hrec
  refine ⟨hrec, ?_, ?_⟩
  · rw [hrec, takeLast_length]
    omega
  · intro hN
    rw [hrec, takeLast_length]
    omega

/-- C5 witness: pushing 3 valid events through a window of 2 keeps the
2 most recent, evicting the oldest. -/
theorem c5_recent_window_bound_witness :
    (∀ p ∈ c5Pushes, p.1 = "home" ∨ p.1 = "away") ∧
      (c5Pushes.foldl (fun t p => t.update_scoring_run p.1 p.2)
        (windowStrategy 2)).recent_scoring_events = takeLast 2 c5Pushes ∧
      (c5Pushes.foldl (fun t p => t.update_scoring_run p.1 p.2)
        (windowStrategy 2)).recent_scoring_events.length ≤ 2 ∧
      (2 ≤ c5Pushes.length →
        (c5Pushes.foldl (fun t p => t.update_scoring_run p.1 p.2)
          (windowStrategy 2)).recent_scoring_events.length = 2) :=
  ⟨by decide, c5_recent_window_bound 2 c5Pushes (by decide)⟩

/-- C6: for every game state — any scores, any `time_remaining`, any
scoring window and any made/attempt counters — and any exponential, the
win-probability estimate of an engine with non-negative blend weights
lies in the closed interval `[0.01, 0.99]`. -/
theorem c6_win_probability_clamped (expQ : ℚ → ℚ) (s : Strategy)
    (_ha : 0 ≤ s.alpha) (_hb : 0 ≤ s.beta) :
    1/100 ≤ s.compute_win_probability expQ ∧
      s.compute_win_probability expQ ≤ 99/100 := by
  simp only [Strategy.compute_win_probability]
  exact ⟨le_min (le_max_right _ _) (by norm_num), min_le_right _ _⟩

/-- C6 witness: the default engine has non-negative weights and its
estimate is within the clamp bounds. -/
theorem c6_win_probability_clamped_witness :
    0 ≤ defaultStrategy.alpha ∧ 0 ≤ defaultStrategy.beta ∧
      (1/100 ≤ defaultStrategy.compute_win_probability expAt0 ∧
        defaultStrategy.compute_win_probability expAt0 ≤ 99/100) :=
  ⟨by decide, by decide,
   c6_win_probability_clamped expAt0 defaultStrategy (by decide) (by decide)⟩

/-- C7: with `base_gap ≥ min_gap ≥ 0`, the gap threshold is monotone
non-increasing as `time_remaining` decreases over `[30, 2400]`, and for
`time_remaining < 30` it drops to
`max(min_gap·0.25, threshold·0.25)` where `threshold` is the value the
pre-override formula gives. -/
theorem c7_gap_threshold_monotone (s : Strategy) (h0 : 0 ≤ s.min_gap)
    (h1 : s.min_gap ≤ s.base_gap) :
    (∀ t1 t2 : ℚ, 30 ≤ t1 → t1 ≤ t2 → t2 ≤ 2400 →
      ({ s with time_remaining := t1 } : Strategy).dynamic_gap_threshold ≤
        ({ s with time_remaining := t2 } : Strategy).dynamic_gap_threshold) ∧
      (∀ t : ℚ, 0 ≤ t → t < 30 →
        ({ s with time_remaining := t } : Strategy).dynamic_gap_threshold =
          max (s.min_gap * (1/4))
            ((max s.min_gap (s.base_gap * (1 + t / 2400))) * (1/4))) := by
  have hbase : 0 ≤ s.base_gap := h0.trans h1
  constructor
  · intro t1 t2 ht1 ht12 ht2
    have ht10 : (0:ℚ) ≤ t1 := by linarith
    have ht20 : (0:ℚ) ≤ t2 := by linarith
    have ht14 : t1 ≤ 2400 := by linarith
    simp only [Strategy.dynamic_gap_threshold]
    rw [if_neg (not_lt.mpr (by linarith : (30:ℚ) ≤ t1)),
      if_neg (not_lt.mpr (by linarith : (30:ℚ) ≤ t2)),
      max_eq_left (div_nonneg ht10 (by norm_num)),
      min_eq_left ((div_le_one (by norm_num)).mpr ht14),
      max_eq_left (div_nonneg ht20 (by norm_num)),
      min_eq_left ((div_le_one (by norm_num)).mpr ht2)]
    exact max_le_max le_rfl
      (mul_le_mul_of_nonneg_left
        (add_le_add_left ((div_le_div_iff_of_pos_right (by norm_num)).mpr ht12) 1) hbase)
  · intro t h0t ht30
    simp only [Strategy.dynamic_gap_threshold]
    rw [if_pos ht30,
      max_eq_left (div_nonneg h0t (by norm_num)),
      min_eq_left ((div_le_one (by norm_num)).mpr (by linarith))]

/-- C7 witness: the default parameters satisfy the preconditions; the
threshold at 30s remaining is at most the one at 2400s, and at 0s the
end-game override formula holds. -/
theorem c7_gap_threshold_monotone_witness :
    0 ≤ defaultStrategy.min_gap ∧
      defaultStrategy.min_gap ≤ defaultStrategy.base_gap ∧
      (30:ℚ) ≤ 30 ∧ (30:ℚ) ≤ 2400 ∧ (2400:ℚ) ≤ 2400 ∧
      ({ defaultStrategy with time_remaining := (30:ℚ) } : Strategy).dynamic_gap_threshold ≤
        ({ defaultStrategy with time_remaining := (2400:ℚ) } : Strategy).dynamic_gap_threshold ∧
      (0:ℚ) ≤ 0 ∧ (0:ℚ) < 30 ∧
      ({ defaultStrategy with time_remaining := (0:ℚ) } : Strategy).dynamic_gap_threshold =
        max (defaultStrategy.min_gap * (1/4))
          ((max defaultStrategy.min_gap
            (defaultStrategy.base_gap * (1 + (0:ℚ) / 2400))) * (1/4)) :=
  ⟨by decide, by decide, by decide, by decide, by decide,
   (c7_gap_threshold_monotone defaultStrategy (by decide) (by decide)).1 30 2400
     (by decide) (by decide) (by decide),
   by decide, by decide,
   (c7_gap_threshold_monotone defaultStrategy (by decide) (by decide)).2 0
     (by decide) (by decide)⟩

end TradingV4
